import Mathlib

set_option maxRecDepth 8192

/-!
Verification development for the CodeXR query-grounding and response-assembly
pipeline.  The definitions below are shallow embeddings of the Python sources:

* `src/app.py`            — category classifier, static knowledge bases, response builder
* `src/streamlit_app.py`  — the UI's variant of the category classifier
* `src/schemas.py`        — the pydantic response schema and its validators
* `src/langchain_search.py` — the web search aggregator (provider fallback chain,
  result parsing, ranking)
* `src/phase2_3_framework.py` — the offline document index (SQLite) and the
  error-signature matcher

Python strings are modelled as Lean `String`s; `str.lower` is modelled on the
ASCII range (all data handled by the claims is ASCII).  Wall-clock timestamps
(`datetime.now()`, SQL `created_at`) carry no information used by any claim and
are not modelled.  SQLite's default `LIKE` is ASCII-case-insensitive with `%`
and `_` wildcards; `likeMatch` below implements exactly that semantics.
-/

/-- ASCII lower-casing of one character (model of `str.lower` for the ASCII range). -/
def asciiLower (c : Char) : Char :=
  if 65 ≤ c.toNat ∧ c.toNat ≤ 90 then Char.ofNat (c.toNat + 32) else c

/-- Model of Python `s.lower()` (ASCII range). -/
def pyLower (s : String) : String :=
  String.mk (s.data.map asciiLower)

/-- Does `needle` occur as a contiguous sublist of the second argument?
Model of Python's substring containment, on `List Char`. -/
def listContains (needle : List Char) : List Char → Bool
  | [] => needle.isEmpty
  | c :: t => needle.isPrefixOf (c :: t) || listContains needle t

/-- Model of Python `needle in hay` for strings. -/
def pyContains (hay needle : String) : Bool :=
  listContains needle.data hay.data

/-- Model of Python `s.startswith(pfx)`. -/
def pyStartsWith (s pfx : String) : Bool :=
  pfx.data.isPrefixOf s.data

/-- Model of Python `s[:n]` for strings. -/
def pyTruncate (n : Nat) (s : String) : String :=
  String.mk (s.data.take n)

/-! ## app.py — data models (lines 26–40) -/

/-- Embedding of `app.py` `SubTask` (pydantic model, lines 26–29). -/
structure SubTask where
  description : String
  code_snippet : Option String := none
  explanation : Option String := none
deriving DecidableEq, Repr

/-- Embedding of `app.py` `CodeXRResponse` (pydantic model, lines 31–40).
`difficulty_rating : int` is modelled as `Nat` (all values in the source are 1–5). -/
structure CodeXRResponse where
  query : String
  category : String
  subtasks : List SubTask
  code_snippet : String
  best_practices : List String
  gotchas : List String
  difficulty_rating : Nat
  documentation_links : List String
  estimated_time : String
deriving DecidableEq, Repr

/-- One entry of the mock knowledge bases of `app.py`: a subtask dict with keys
`description` and `code_snippet` (every entry in the source carries both keys). -/
structure KBTask where
  description : String
  code_snippet : String
deriving DecidableEq, Repr

/-- One topic entry of a knowledge base of `app.py` (`subtasks`, `main_code`,
`best_practices`, `gotchas`, `docs`). -/
structure KBEntry where
  subtasks : List KBTask
  main_code : String
  best_practices : List String
  gotchas : List String
  docs : List String
deriving DecidableEq, Repr

/-- Embedding of `app.py` `UNITY_KNOWLEDGE["teleport"]` (lines 44–87). -/
def unity_teleport_entry : KBEntry where
  subtasks :=
    [⟨"Set up XR Interaction Toolkit", "// Install XR Interaction Toolkit package via Package Manager"⟩,
     ⟨"Create XR Origin (Camera Rig)", "GameObject.Find(\"XR Origin\")"⟩,
     ⟨"Add Teleportation Provider", "GetComponent<TeleportationProvider>()"⟩,
     ⟨"Configure Teleport Areas", "// Add TeleportationArea components to valid surfaces"⟩]
  main_code := "using UnityEngine;\nusing UnityEngine.XR.Interaction.Toolkit;\n\npublic class TeleportSetup : MonoBehaviour\n\x7b\n    public TeleportationProvider teleportProvider;\n    public XRRayInteractor rayInteractor;\n    \n    void Start()\n    \x7b\n        if (teleportProvider == null)\n            teleportProvider = FindObjectOfType<TeleportationProvider>();\n            \n        if (rayInteractor != null)\n        \x7b\n            rayInteractor.enableUIInteraction = false;\n            rayInteractor.lineType = XRRayInteractor.LineType.ProjectileCurve;\n        \x7d\n    \x7d\n\x7d"
  best_practices :=
    ["Use NavMesh for teleportation boundaries",
     "Provide visual feedback for valid teleport areas",
     "Consider comfort settings to reduce motion sickness",
     "Test on different VR headsets for compatibility"]
  gotchas :=
    ["Ensure TeleportationProvider is assigned in the scene",
     "NavMesh must be baked for teleportation to work",
     "Ray interactor may conflict with UI interactions",
     "Performance impact on mobile VR platforms"]
  docs :=
    ["https://docs.unity3d.com/Packages/com.unity.xr.interaction.toolkit@2.5/manual/teleportation.html",
     "https://docs.unity3d.com/Manual/nav-BuildingNavMesh.html"]

/-- Embedding of `app.py` `UNREAL_KNOWLEDGE["multiplayer"]` (lines 90–144). -/
def unreal_multiplayer_entry : KBEntry where
  subtasks :=
    [⟨"Enable VR Template", "// Create new VR project in Unreal Engine"⟩,
     ⟨"Configure Network Settings", "// Enable multiplayer in Project Settings"⟩,
     ⟨"Setup Game Mode", "// Create custom VRGameMode class"⟩,
     ⟨"Implement Player Replication", "// Configure pawn replication"⟩]
  main_code := "// VRGameMode.h\nUCLASS()\nclass VRGAME_API AVRGameMode : public AGameModeBase\n\x7b\n    GENERATED_BODY()\n    \npublic:\n    AVRGameMode();\n    \nprotected:\n    virtual void PostLogin(APlayerController* NewPlayer) override;\n    virtual void Logout(AController* Exiting) override;\n    \n    UPROPERTY(EditDefaultsOnly, BlueprintReadOnly)\n    int32 MaxPlayers = 4;\n\x7d;\n\n// VRGameMode.cpp\nAVRGameMode::AVRGameMode()\n\x7b\n    DefaultPawnClass = AVRPawn::StaticClass();\n    PlayerControllerClass = AVRPlayerController::StaticClass();\n\x7d\n\nvoid AVRGameMode::PostLogin(APlayerController* NewPlayer)\n\x7b\n    Super::PostLogin(NewPlayer);\n    UE_LOG(LogTemp, Log, TEXT(\"Player joined VR session\"));\n\x7d"
  best_practices :=
    ["Use dedicated servers for stable multiplayer",
     "Implement proper VR controller replication",
     "Optimize network traffic for VR-specific data",
     "Handle VR-specific player disconnections gracefully"]
  gotchas :=
    ["VR pawns require special network setup",
     "Hand tracking data needs careful replication",
     "Locomotion can cause network prediction issues",
     "Performance drops significantly with multiple VR players"]
  docs :=
    ["https://docs.unrealengine.com/5.0/en-us/multiplayer-programming-quick-start-for-unreal-engine/",
     "https://docs.unrealengine.com/5.0/en-us/vr-development-in-unreal-engine/"]

/-- Embedding of `app.py` `SHADER_KNOWLEDGE["occlusion"]` (lines 146–220). -/
def shader_occlusion_entry : KBEntry where
  subtasks :=
    [⟨"Create Occlusion Shader", "// Create new Unlit shader in Unity"⟩,
     ⟨"Configure Depth Testing", "// Setup depth buffer comparison"⟩,
     ⟨"Implement Alpha Blending", "// Configure transparency for occlusion"⟩,
     ⟨"Optimize for Mobile AR", "// Reduce shader complexity for mobile"⟩]
  main_code := "Shader \"AR/OcclusionShader\"\n\x7b\n    Properties\n    \x7b\n        _MainTex (\"Texture\", 2D) = \"white\" \x7b\x7d\n        _Alpha (\"Alpha\", Range(0,1)) = 0.5\n    \x7d\n    SubShader\n    \x7b\n        Tags \x7b \"RenderType\"=\"Transparent\" \"Queue\"=\"Geometry-1\" \x7d\n        LOD 100\n        \n        Pass\n        \x7b\n            ZWrite On\n            ZTest LEqual\n            ColorMask 0\n            \n            CGPROGRAM\n            #pragma vertex vert\n            #pragma fragment frag\n            \n            #include \"UnityCG.cginc\"\n            \n            struct appdata\n            \x7b\n                float4 vertex : POSITION;\n            \x7d;\n            \n            struct v2f\n            \x7b\n                float4 vertex : SV_POSITION;\n            \x7d;\n            \n            v2f vert (appdata v)\n            \x7b\n                v2f o;\n                o.vertex = UnityObjectToClipPos(v.vertex);\n                return o;\n            \x7d\n            \n            fixed4 frag (v2f i) : SV_Target\n            \x7b\n                return fixed4(0,0,0,0);\n            \x7d\n            ENDCG\n        \x7d\n    \x7d\n\x7d"
  best_practices :=
    ["Use depth-only rendering for performance",
     "Implement proper depth buffer management",
     "Consider mobile GPU limitations",
     "Test with different AR tracking systems"]
  gotchas :=
    ["Render queue order is critical for occlusion",
     "Mobile GPUs may have depth precision issues",
     "Alpha blending can cause sorting problems",
     "Performance impact on older devices"]
  docs :=
    ["https://docs.unity3d.com/Manual/SL-ShaderReplacement.html",
     "https://developers.google.com/ar/develop/unity/occlusion"]

/-- Embedding of `app.py` `UNITY_KNOWLEDGE` as an association list in dict insertion order. -/
def UNITY_KNOWLEDGE : List (String × KBEntry) := [("teleport", unity_teleport_entry)]

/-- Embedding of `app.py` `UNREAL_KNOWLEDGE`. -/
def UNREAL_KNOWLEDGE : List (String × KBEntry) := [("multiplayer", unreal_multiplayer_entry)]

/-- Embedding of `app.py` `SHADER_KNOWLEDGE`. -/
def SHADER_KNOWLEDGE : List (String × KBEntry) := [("occlusion", shader_occlusion_entry)]

/-! ## app.py — category classifier (lines 222–233) -/

/-- Keyword list of `app.py` line 224. -/
def unity_keywords : List String := ["unity", "c#", "xr toolkit", "teleport", "vr", "ar", "interaction"]

/-- Keyword list of `app.py` line 225. -/
def unreal_keywords : List String := ["unreal", "c++", "ue4", "ue5", "blueprint", "multiplayer"]

/-- Keyword list of `app.py` line 226. -/
def shader_keywords : List String := ["shader", "hlsl", "glsl", "material", "rendering", "occlusion"]

/-- Model of `sum(kw in query_lower for kw in keywords)`: the number of keywords
occurring as substrings of the (already lower-cased) query. -/
def keywordScore (keywords : List String) (query_lower : String) : Nat :=
  keywords.countP (fun kw => pyContains query_lower kw)

/-- Model of Python `max(scores, key=scores.get)` over a dict in insertion order:
the fold keeps the current best and replaces it only on a strictly greater score,
so the first key with the maximal score wins. -/
def pyMaxByScore (first : String × Nat) (rest : List (String × Nat)) : String × Nat :=
  rest.foldl (fun best p => if best.2 < p.2 then p else best) first

/-- Embedding of `app.py` `categorize_query` (lines 222–233). -/
def categorize_query (query : String) : String :=
  let query_lower := pyLower query
  let u := keywordScore unity_keywords query_lower
  let r := keywordScore unreal_keywords query_lower
  let s := keywordScore shader_keywords query_lower
  let max_cat := pyMaxByScore ("Unity", u) [("Unreal", r), ("Shader", s)]
  if 0 < max_cat.2 then max_cat.1 else "General"

/-! ## streamlit_app.py — category classifier variant (lines 449–464) -/

/-- Keyword list of `streamlit_app.py` line 453. -/
def st_unity_keywords : List String :=
  ["unity", "c#", "xr toolkit", "teleport", "vr", "ar", "interaction", "gameobject"]

/-- Keyword list of `streamlit_app.py` line 454. -/
def st_unreal_keywords : List String :=
  ["unreal", "c++", "ue4", "ue5", "blueprint", "multiplayer", "uclass", "generated_body"]

/-- Keyword list of `streamlit_app.py` line 455. -/
def st_shader_keywords : List String :=
  ["shader", "hlsl", "glsl", "material", "rendering", "occlusion", "vertex", "fragment"]

/-- Embedding of `streamlit_app.py` `categorize_query` (lines 449–464). -/
def st_categorize_query (query : String) : String :=
  let query_lower := pyLower query
  let u := keywordScore st_unity_keywords query_lower
  let r := keywordScore st_unreal_keywords query_lower
  let s := keywordScore st_shader_keywords query_lower
  let max_category := pyMaxByScore ("Unity", u) [("Unreal", r), ("Shader", s)]
  if 0 < max_category.2 then max_category.1 else "General"

/-! ## app.py — generate_response (lines 235–310) -/

/-- The knowledge base and topic key chosen by `generate_response` (lines 236–250):
for Unity the first dict key occurring in `query.lower()` with `key or "teleport"`
as the fallback; for Unreal/Unreal the fixed single key; `none` for the General
else-branch. -/
def knowledgeAndKey (category query : String) : Option (List (String × KBEntry) × String) :=
  if category == "Unity" then
    some (UNITY_KNOWLEDGE,
      (((UNITY_KNOWLEDGE.map Prod.fst).find? (fun k => pyContains (pyLower query) k)).getD "teleport"))
  else if category == "Unreal" then
    some (UNREAL_KNOWLEDGE, "multiplayer")
  else if category == "Shader" then
    some (SHADER_KNOWLEDGE, "occlusion")
  else
    none

/-- The General-category response of `generate_response` (lines 252–281). -/
def generalResponse (query : String) : CodeXRResponse where
  query := query
  category := "General"
  subtasks :=
    [{ description := "Choose your development platform (Unity/Unreal)",
       explanation := some "Select based on your team\x27s expertise and project requirements" },
     { description := "Set up VR/AR SDK",
       explanation := some "Install platform-specific SDKs and tools" },
     { description := "Configure development environment",
       explanation := some "Set up IDE, version control, and testing devices" }]
  code_snippet := "// Choose your platform and follow platform-specific setup guides"
  best_practices :=
    ["Start with simple interactions before complex features",
     "Test regularly on target devices",
     "Follow platform-specific design guidelines",
     "Optimize for performance from the beginning"]
  gotchas :=
    ["Each platform has different performance characteristics",
     "SDK updates can break existing functionality",
     "Device compatibility varies significantly"]
  difficulty_rating := 3
  documentation_links :=
    ["https://docs.unity3d.com/Manual/XR.html",
     "https://docs.unrealengine.com/5.0/en-us/vr-development-in-unreal-engine/"]
  estimated_time := "2-4 hours for basic setup"

/-- The response `generate_response` builds from a knowledge-base entry
(lines 282–299). -/
def responseFromEntry (query category : String) (kb_entry : KBEntry) : CodeXRResponse where
  query := query
  category := category
  subtasks := kb_entry.subtasks.map (fun task =>
    { description := task.description,
      code_snippet := some task.code_snippet,
      explanation := some ("This step is essential for " ++ pyLower task.description) })
  code_snippet := kb_entry.main_code
  best_practices := kb_entry.best_practices
  gotchas := kb_entry.gotchas
  difficulty_rating := if category == "Shader" then 4 else 3
  documentation_links := kb_entry.docs
  estimated_time := if category == "Unreal" then "3-6 hours" else "1-3 hours"

/-- The final fall-through response of `generate_response` (lines 300–310), taken
when the chosen key is missing from the chosen knowledge base. -/
def fallbackResponse (query category : String) : CodeXRResponse where
  query := query
  category := category
  subtasks :=
    [{ description := "Research specific implementation",
       explanation := some "Look up official documentation" }]
  code_snippet := "// Implementation depends on specific requirements"
  best_practices := ["Follow official guidelines", "Test thoroughly"]
  gotchas := ["Implementation may vary by platform version"]
  difficulty_rating := 3
  documentation_links := ["https://docs.example.com"]
  estimated_time := "2-4 hours"

/-- Embedding of `app.py` `generate_response` (lines 235–310). -/
def generate_response (query category : String) : CodeXRResponse :=
  match knowledgeAndKey category query with
  | none => generalResponse query
  | some (knowledge_base, key) =>
    match knowledge_base.find? (fun p => p.1 == key) with
    | some p => responseFromEntry query category p.2
    | none => fallbackResponse query category

/-! ## schemas.py — response validators (lines 25–119)

Each pydantic `Field` bound and each `@validator` of `SubTask` and
`CodeXRResponse` is modelled as its own boolean check, mirroring the separate
validators of the source; `validateCodeXRResponse` is their conjunction. -/

/-- Embedding of `schemas.py` `SubTask.description_must_be_actionable` (lines 42–46). -/
def description_must_be_actionable (v : String) : Bool :=
  ["create", "add", "configure", "setup", "implement", "install"].any
    (fun word => pyContains (pyLower v) word)

/-- Embedding of `schemas.py` `SubTask.description` field bounds: `min_length=10, max_length=200`. -/
def subTaskFieldBoundsOk (t : SubTask) : Bool :=
  decide (10 ≤ t.description.length) && decide (t.description.length ≤ 200)

/-- Embedding of `schemas.py` `CodeXRResponse.category : CategoryEnum` membership. -/
def categoryCheck (r : CodeXRResponse) : Bool :=
  ["Unity", "Unreal", "Shader", "General"].contains r.category

/-- Embedding of `schemas.py` `CodeXRResponse.subtasks` bounds `min_items=3, max_items=8`
together with each subtask's field bounds. -/
def subtasksFieldCheck (r : CodeXRResponse) : Bool :=
  decide (3 ≤ r.subtasks.length) && decide (r.subtasks.length ≤ 8) &&
    r.subtasks.all subTaskFieldBoundsOk

/-- The `description_must_be_actionable` validator applied to every subtask. -/
def subtasksActionableCheck (r : CodeXRResponse) : Bool :=
  r.subtasks.all (fun t => description_must_be_actionable t.description)

/-- Embedding of `schemas.py` `CodeXRResponse.code_snippet` bound `min_length=50`. -/
def codeSnippetCheck (r : CodeXRResponse) : Bool :=
  decide (50 ≤ r.code_snippet.length)

/-- Embedding of `schemas.py` `best_practices` bounds `min_items=3, max_items=10` and the
`validate_best_practices` per-item validator (each ≥ 10 characters). -/
def bestPracticesCheck (r : CodeXRResponse) : Bool :=
  decide (3 ≤ r.best_practices.length) && decide (r.best_practices.length ≤ 10) &&
    r.best_practices.all (fun v => decide (10 ≤ v.length))

/-- Embedding of `schemas.py` `gotchas` bounds `min_items=2, max_items=8` and the
`validate_gotchas` per-item validator (each ≥ 15 characters). -/
def gotchasCheck (r : CodeXRResponse) : Bool :=
  decide (2 ≤ r.gotchas.length) && decide (r.gotchas.length ≤ 8) &&
    r.gotchas.all (fun v => decide (15 ≤ v.length))

/-- Embedding of `schemas.py` `difficulty_rating : DifficultyLevel` membership (integer 1–5). -/
def difficultyCheck (r : CodeXRResponse) : Bool :=
  decide (1 ≤ r.difficulty_rating) && decide (r.difficulty_rating ≤ 5)

/-- Embedding of `schemas.py` `documentation_links` bounds `min_items=2, max_items=6` and the
`validate_documentation_links` per-item validator (`startswith http:// or https://`). -/
def documentationLinksCheck (r : CodeXRResponse) : Bool :=
  decide (2 ≤ r.documentation_links.length) && decide (r.documentation_links.length ≤ 6) &&
    r.documentation_links.all (fun v => pyStartsWith v "http://" || pyStartsWith v "https://")

/-- Embedding of `schemas.py` `validate_estimated_time` (lines 114–119). -/
def estimatedTimeCheck (r : CodeXRResponse) : Bool :=
  ["hour", "day", "week", "minute"].any (fun pat => pyContains (pyLower r.estimated_time) pat)

/-- Full validation of a response against `schemas.CodeXRResponse`: the
conjunction of every field bound and every `@validator`. -/
def validateCodeXRResponse (r : CodeXRResponse) : Bool :=
  categoryCheck r && subtasksFieldCheck r && subtasksActionableCheck r &&
    codeSnippetCheck r && bestPracticesCheck r && gotchasCheck r &&
    difficultyCheck r && documentationLinksCheck r && estimatedTimeCheck r

/-- Every schema check except the actionable-verb subtask validator. -/
def validateExceptActionable (r : CodeXRResponse) : Bool :=
  categoryCheck r && subtasksFieldCheck r &&
    codeSnippetCheck r && bestPracticesCheck r && gotchasCheck r &&
    difficultyCheck r && documentationLinksCheck r && estimatedTimeCheck r

/-! ## langchain_search.py — web search aggregator

`CodeXRSearchAgent.search_ar_vr_docs` and its helpers (lines 62–190).  The
provider tools held in `self.search_tools` are modelled as functions from a
query string to `Except Unit ProviderResp`: `Except.error ()` models a raised
exception, `Except.ok` a returned value (Python returns either a plain string
or a structured list of dicts).  The `datetime.now()` timestamp attached to
each parsed result carries no information used by any claim and is omitted. -/

/-- One structured result dict as consumed by `_parse_search_results`
(optional keys `title`, `snippet`, `content`, `url`, `link`). -/
structure StructuredItem where
  title : Option String := none
  snippet : Option String := none
  content : Option String := none
  url : Option String := none
  link : Option String := none
deriving DecidableEq, Repr

/-- The value returned by a provider invocation that did not raise. -/
inductive ProviderResp where
  | raw (s : String)
  | structured (items : List StructuredItem)
deriving DecidableEq, Repr

/-- A provider tool: `Except.error ()` models a raised exception. -/
abbrev SearchTool := String → Except Unit ProviderResp

/-- One entry of the list returned by `search_ar_vr_docs`
(`title`/`content`/`url`/`source` plus the `relevance_score` added by
`_rank_and_filter_results`). -/
structure SearchResultRec where
  title : String
  content : String
  url : String
  source : String
  relevance_score : Nat := 0
deriving DecidableEq, Repr

/-- Embedding of `langchain_search.py` `_parse_search_results` (lines 122–151). -/
def parse_search_results (results : ProviderResp) (query : String) : List SearchResultRec :=
  match results with
  | .raw s =>
    [{ title := "Search Results for: " ++ query,
       content := pyTruncate 500 s,
       url := "N/A",
       source := "Web Search" }]
  | .structured items =>
    (items.take 3).map (fun result =>
      { title := result.title.getD "No Title",
        content := pyTruncate 500 (result.snippet.getD (result.content.getD "")),
        url := result.url.getD (result.link.getD "N/A"),
        source := "Web Search" })

/-- Embedding of the `langchain_search.py` `base_terms` dict in `_build_search_queries`
(lines 91–96); `none` models `category not in base_terms`. -/
def base_terms (category : String) : Option (List String) :=
  if category == "Unity" then some ["Unity3D", "XR Interaction Toolkit", "Unity VR", "Unity AR"]
  else if category == "Unreal" then some ["Unreal Engine", "UE4", "UE5", "Unreal VR", "Unreal AR"]
  else if category == "Shader" then some ["Unity Shader", "HLSL", "Shader Graph", "URP Shader"]
  else if category == "General" then some ["AR development", "VR development", "Mixed Reality"]
  else none

/-- Embedding of `langchain_search.py` `doc_sites` (lines 98–104). -/
def doc_sites : List String :=
  ["site:docs.unity3d.com", "site:docs.unrealengine.com", "site:learn.unity.com",
   "site:developer.oculus.com", "site:developers.google.com/ar"]

/-- Embedding of `langchain_search.py` `_build_search_queries` (lines 88–120). -/
def build_search_queries (query category : String) : List String :=
  (match base_terms category with
   | some terms => (terms.take 2).map (fun term => query ++ " " ++ term ++ " tutorial documentation")
   | none => [])
  ++ (doc_sites.take 3).map (fun site => query ++ " " ++ site)
  ++ ["AR VR development " ++ query ++ " official documentation"]

/-- The inner `for tool in self.search_tools` loop of `search_ar_vr_docs`
(lines 72–83) for one enhanced query.  The `try` of the source wraps the whole
loop, so a tool that raises propagates to the per-query `except`, which
`continue`s with the next enhanced query: a raise yields `[]` for this query
and the remaining tools are not invoked.  A tool that returns a non-empty
parsed list breaks the loop; an empty parsed list falls through to the next
tool (contributing nothing to `all_results`). -/
def runToolChain (tools : List SearchTool) (search_query : String) : List SearchResultRec :=
  match tools with
  | [] => []
  | tool :: rest =>
    match tool search_query with
    | .error _ => []
    | .ok results =>
      let parsed_results := parse_search_results results search_query
      if parsed_results.isEmpty then runToolChain rest search_query else parsed_results

/-- The accumulation of `all_results` over the enhanced queries
(the outer `for search_query in enhanced_queries[:2]` loop, applied to an
already-truncated query list). -/
def gatherAllResults (tools : List SearchTool) (queries : List String) : List SearchResultRec :=
  (queries.map (runToolChain tools)).flatten

/-- Embedding of the `langchain_search.py` `priority_domains` dict (lines 157–162); unknown
categories contribute no domain boost. -/
def priority_domains (category : String) : List String :=
  if category == "Unity" then ["docs.unity3d.com", "learn.unity.com"]
  else if category == "Unreal" then ["docs.unrealengine.com", "unrealengine.com"]
  else if category == "Shader" then ["docs.unity3d.com", "catlikecoding.com"]
  else if category == "General" then ["developer.oculus.com", "developers.google.com"]
  else []

/-- Embedding of `langchain_search.py` `ar_vr_terms` (line 182). -/
def ar_vr_terms : List String := ["ar", "vr", "virtual reality", "augmented reality", "mixed reality"]

/-- Model of Python `s.split()`: split on whitespace runs, dropping empty parts.
The accumulator holds the current word reversed. -/
def pySplitAux (acc : List Char) : List Char → List String
  | [] => if acc.isEmpty then [] else [String.mk acc.reverse]
  | c :: cs =>
    if c.isWhitespace then
      if acc.isEmpty then pySplitAux [] cs else String.mk acc.reverse :: pySplitAux [] cs
    else pySplitAux (c :: acc) cs

/-- Model of Python `s.split()`. -/
def pySplit (s : String) : List String := pySplitAux [] s.data

/-- The relevance score computed in `_rank_and_filter_results` (lines 166–185):
10 per priority domain present in the URL, 1 per query word present in the
content, 2 per AR/VR term present in the content (all lower-cased). -/
def resultScore (category query : String) (result : SearchResultRec) : Nat :=
  let url := pyLower result.url
  let content := pyLower result.content
  10 * (priority_domains category).countP (fun domain => pyContains url domain)
    + (pySplit (pyLower query)).countP (fun word => pyContains content word)
    + 2 * ar_vr_terms.countP (fun term => pyContains content term)

/-- Embedding of `langchain_search.py` `_rank_and_filter_results` (lines 153–190):
attach `relevance_score` to each result, sort descending by score (Python
`list.sort` with `reverse=True` is a stable sort over the descending score
order, modelled by the stable `List.insertionSort`), and return the top 5. -/
def rank_and_filter_results (results : List SearchResultRec) (query category : String) :
    List SearchResultRec :=
  let scored_results := results.map (fun r => { r with relevance_score := resultScore category query r })
  (scored_results.insertionSort (fun a b => b.relevance_score ≤ a.relevance_score)).take 5

/-- Embedding of `langchain_search.py` `search_ar_vr_docs` (lines 62–86), parameterised by
the provider tools of `self.search_tools`. -/
def search_ar_vr_docs (tools : List SearchTool) (query category : String) : List SearchResultRec :=
  let enhanced_queries := build_search_queries query category
  let all_results := gatherAllResults tools (enhanced_queries.take 2)
  rank_and_filter_results all_results query category

/-! ## phase2_3_framework.py — offline document index (RAGLiteRetriever)

The SQLite database is modelled as a `RagDB` value: the `documents` table as a
list of rows in insertion order with the AUTOINCREMENT id made explicit, and
the `retrieval_cache` table as an association list (query hash ↦ serialized
results).  `created_at` timestamps carry no information used by any claim and
are omitted.  SQLite's default `LIKE` semantics (ASCII-case-insensitive, with
`%` matching any run and `_` matching any single character) is implemented by
`likeMatch`. -/

/-- One row of the `documents` table (id, title, content, source, category, url). -/
structure DocRow where
  id : Nat
  title : String
  content : String
  source : String
  category : String
  url : String
deriving DecidableEq, Repr

/-- One document dict passed to `index_documentation`; `url` defaults to `""`
(`doc.get('url', '')`). -/
structure DocInput where
  title : String
  content : String
  source : String
  category : String
  url : String := ""
deriving DecidableEq, Repr

/-- The database state of `RAGLiteRetriever`: both tables created by
`_initialize_database`, plus the next AUTOINCREMENT id. -/
structure RagDB where
  documents : List DocRow := []
  retrieval_cache : List (String × String) := []
  next_id : Nat := 1
deriving DecidableEq, Repr

/-- Embedding of `phase2_3_framework.py` `_initialize_database` (lines 22–48): empty tables. -/
def initialize_database : RagDB := {}

/-- Embedding of `phase2_3_framework.py` `index_documentation` (lines 50–69): append every
document with the next AUTOINCREMENT id. -/
def index_documentation (db : RagDB) (documents : List DocInput) : RagDB :=
  documents.foldl (fun db doc =>
    { db with
      documents := db.documents ++
        [{ id := db.next_id, title := doc.title, content := doc.content,
           source := doc.source, category := doc.category, url := doc.url }],
      next_id := db.next_id + 1 }) db

/-- Case-insensitive character comparison, as performed by SQLite's default
`LIKE` on the ASCII range. -/
def charEqCI (a b : Char) : Bool := asciiLower a == asciiLower b

/-- SQLite `LIKE` pattern matching (`%` matches any run of characters, `_`
matches exactly one, other characters match case-insensitively): a leading `%`
matches the text exactly when the rest of the pattern matches some suffix. -/
def likeMatch : List Char → List Char → Bool
  | [], t => t.isEmpty
  | p :: ps, t =>
    if p = '%' then t.tails.any (fun suffix => likeMatch ps suffix)
    else
      match t with
      | [] => false
      | c :: ts => if p = '_' then likeMatch ps ts else charEqCI p c && likeMatch ps ts

/-- The `LIKE` pattern `f"%{query}%"` built by `retrieve_relevant_docs`. -/
def likePattern (query : String) : List Char := '%' :: query.data ++ ['%']

/-- The `WHERE` clause `content LIKE ? OR title LIKE ?` of
`retrieve_relevant_docs`, for one row. -/
def rowMatchesQuery (query : String) (row : DocRow) : Bool :=
  likeMatch (likePattern query) row.content.data || likeMatch (likePattern query) row.title.data

/-- Python truthiness of the `if category:` guard in `retrieve_relevant_docs`:
`None` and the empty string are falsy. -/
def categoryFilterActive : Option String → Bool
  | none => false
  | some c => !c.isEmpty

/-- One result dict built by `retrieve_relevant_docs`; the mock similarity
score `0.8` is recorded in tenths (floating point is not modelled). -/
structure RetrievedDoc where
  id : Nat
  title : String
  content : String
  source : String
  category : String
  url : String
  similarity_tenths : Nat
deriving DecidableEq, Repr

/-- Embedding of `phase2_3_framework.py` `retrieve_relevant_docs` (lines 71–105).  The
second component is the database state after the call: the source only runs
`SELECT` statements, so the state is returned unchanged — in particular the
`retrieval_cache` table is neither consulted nor populated. -/
def retrieve_relevant_docs (db : RagDB) (query : String) (category : Option String)
    (top_k : Nat) : List RetrievedDoc × RagDB :=
  let eligible :=
    if categoryFilterActive category then
      db.documents.filter (fun row => row.category == category.getD "" && rowMatchesQuery query row)
    else
      db.documents.filter (rowMatchesQuery query)
  let rows := (eligible.insertionSort (fun a b => b.id ≤ a.id)).take top_k
  (rows.map (fun row =>
    { id := row.id, title := row.title, content := row.content, source := row.source,
      category := row.category, url := row.url, similarity_tenths := 8 }), db)

/-! ## phase2_3_framework.py — error signature matcher (ErrorDebugger) -/

/-- One pre-authored diagnosis entry of `ErrorDebugger.error_patterns`. -/
structure ErrorPattern where
  analysis : String
  fix : String
  code_fix : String
  prevention : List String
deriving DecidableEq, Repr

/-- Entry `error_patterns["NullReferenceException"]["teleportationprovider"]`
(lines 115–121). -/
def teleportation_pattern : ErrorPattern where
  analysis := "TeleportationProvider component is not assigned"
  fix := "Assign TeleportationProvider in the Inspector or via script"
  code_fix := "teleportProvider = FindObjectOfType<TeleportationProvider>();"
  prevention := ["Always check for null references", "Use [RequireComponent] attribute"]

/-- Entry `error_patterns["MissingComponentException"]["general"]` (lines 123–130). -/
def missing_component_pattern : ErrorPattern where
  analysis := "Required component is missing from GameObject"
  fix := "Add the missing component via Inspector or AddComponent<T>()"
  code_fix := "gameObject.AddComponent<RequiredComponent>();"
  prevention := ["Use [RequireComponent] attribute", "Validate components in OnValidate()"]

/-- The two-level signature table `ErrorDebugger.error_patterns`
(lines 114–131).  Note that `debug_error` only ever consults the
NullReferenceException/teleportationprovider entry. -/
def error_patterns : List (String × List (String × ErrorPattern)) :=
  [("NullReferenceException", [("teleportationprovider", teleportation_pattern)]),
   ("MissingComponentException", [("general", missing_component_pattern)])]

/-- The diagnosis dict produced by `debug_error`. -/
structure ErrorDiagnosis where
  error_type : String
  error_analysis : String
  likely_fix : String
  code_fix : String
  prevention_tips : List String
deriving DecidableEq, Repr

/-- The matched diagnosis returned by `debug_error` (lines 140–148), built from
`teleportation_pattern`. -/
def nre_teleport_diagnosis : ErrorDiagnosis where
  error_type := "NullReferenceException"
  error_analysis := teleportation_pattern.analysis
  likely_fix := teleportation_pattern.fix
  code_fix := teleportation_pattern.code_fix
  prevention_tips := teleportation_pattern.prevention

/-- The generic diagnosis returned by `debug_error` (lines 150–157). -/
def generic_diagnosis : ErrorDiagnosis where
  error_type := "Unknown"
  error_analysis := "Check Unity Console for detailed error information"
  likely_fix := "Review stack trace and add proper null checks"
  code_fix := "// Add appropriate error handling here"
  prevention_tips := ["Enable detailed logging", "Use try-catch blocks"]

/-- Embedding of `phase2_3_framework.py` `ErrorDebugger.debug_error` (lines 133–157); the
`context` argument is unused by the source. -/
def debug_error (error_log : String) (_context : Option String := none) : ErrorDiagnosis :=
  let error_log_lower := pyLower error_log
  if pyContains error_log_lower "nullreferenceexception" then
    if pyContains error_log_lower "teleportationprovider" then
      nre_teleport_diagnosis
    else
      generic_diagnosis
  else
    generic_diagnosis

/-! ## Statement-side definitions used by the claims -/

/-- First canonical demo query (`schemas.py` lines 195–199, `app.py` line 331). -/
def demo_query_unity : String := "How do I add teleport locomotion in Unity VR?"

/-- Second canonical demo query. -/
def demo_query_unreal : String := "How do I set up multiplayer in Unreal VR?"

/-- Third canonical demo query. -/
def demo_query_shader : String := "Which shader works best for AR occlusion?"

/-- A provider tool whose invocation always raises. -/
def failing_tool : SearchTool := fun _ => Except.error ()

/-- A provider tool that always returns a plain-string result (which
`_parse_search_results` turns into exactly one parsed result). -/
def raw_ok_tool : SearchTool := fun _ => Except.ok (ProviderResp.raw "unity vr docs")

/-- A provider invocation that fails or yields no parsed result for query `q`:
every non-raising return parses to the empty list (a raising tool satisfies
this vacuously). -/
def providerGivesNothing (tool : SearchTool) (q : String) : Prop :=
  ∀ r, tool q = Except.ok r → parse_search_results r q = []

/-- Case-insensitive substring containment between strings (the reading of
"contains the query as a substring" realised by SQLite's default `LIKE`). -/
def containsCI (hay needle : String) : Bool :=
  listContains (needle.data.map asciiLower) (hay.data.map asciiLower)

/-- Does the query avoid both SQL `LIKE` wildcard characters? -/
def noLikeWildcards (q : String) : Bool :=
  q.data.all (fun c => !(c == '%') && !(c == '_'))

/-- The property C7 asserts of each retrieved document: its content or title
contains the query (case-insensitively), and its category equals the filter
when an active (non-empty) filter was supplied. -/
def resultMatchesQuery (query : String) (category : Option String) (r : RetrievedDoc) : Bool :=
  (containsCI r.content query || containsCI r.title query) &&
    (if categoryFilterActive category then r.category == category.getD "" else true)

/-- Adjacent non-increasing identifiers (the order `ORDER BY id DESC` produces). -/
def idsDescending : List RetrievedDoc → Bool
  | [] => true
  | [_] => true
  | a :: b :: t => decide (b.id ≤ a.id) && idsDescending (b :: t)

/-- A document whose title and content contain no `%` character. -/
def sample_doc : DocInput := { title := "abc", content := "def", source := "s", category := "Unity" }

/-- A database holding only `sample_doc`. -/
def sample_db : RagDB := index_documentation initialize_database [sample_doc]

/-- A Unity document whose title contains the substring "Teleport". -/
def teleport_doc : DocInput :=
  { title := "Unity VR Teleportation Setup",
    content := "To set up teleportation install XR Interaction Toolkit",
    source := "Unity Documentation",
    category := "Unity",
    url := "https://docs.unity3d.com/Packages/com.unity.xr.interaction.toolkit@2.5/manual/teleportation.html" }

/-- A database holding only `teleport_doc`. -/
def teleport_db : RagDB := index_documentation initialize_database [teleport_doc]

/-! ## Helper lemmas -/

/-- Python dict-scan: the first element satisfying `f` is the head of the filtered list. -/
theorem find?_filter_head {α : Type} (f : α → Bool) (l : List α) :
    l.find? f = (l.filter f).head? := by
  induction l with
  | nil => rfl
  | cons a t ih =>
    cases h : f a with
    | true =>
      rw [List.find?_cons_of_pos _ h, List.filter_cons_of_pos h, List.head?_cons]
    | false =>
      rw [List.find?_cons_of_neg _ (by simp [h]), List.filter_cons_of_neg (by simp [h]), ih]

/-- For the Unity category the topic lookup always lands on the "teleport" entry:
the only key of `UNITY_KNOWLEDGE` is "teleport" and the `key or "teleport"`
fallback also produces it. -/
theorem gen_unity (q : String) :
    generate_response q "Unity" = responseFromEntry q "Unity" unity_teleport_entry := by
  unfold generate_response knowledgeAndKey
  cases h : pyContains (pyLower q) "teleport" <;>
    simp [UNITY_KNOWLEDGE, List.find?, h]

/-- The Unreal branch always selects the "multiplayer" entry. -/
theorem gen_unreal (q : String) :
    generate_response q "Unreal" = responseFromEntry q "Unreal" unreal_multiplayer_entry := rfl

/-- The Shader branch always selects the "occlusion" entry. -/
theorem gen_shader (q : String) :
    generate_response q "Shader" = responseFromEntry q "Shader" shader_occlusion_entry := rfl

/-! ## Claim theorems -/

/-- Claim C5: in `categorize_query` a tie between category scores resolves to
the earlier category in the fixed priority order Unity, Unreal, Shader; in
particular, whenever the Unity and Unreal keyword-hit counts are equal, jointly
maximal and positive, the result is "Unity".  Stated for `app.py`'s classifier
(first two conjuncts) and `streamlit_app.py`'s variant (last conjunct). -/
theorem classifier_tie_prefers_earlier (q : String) :
    (keywordScore unity_keywords (pyLower q) = keywordScore unreal_keywords (pyLower q) ∧
      keywordScore shader_keywords (pyLower q) ≤ keywordScore unity_keywords (pyLower q) ∧
      0 < keywordScore unity_keywords (pyLower q) →
        categorize_query q = "Unity") ∧
    (keywordScore unity_keywords (pyLower q) < keywordScore unreal_keywords (pyLower q) ∧
      keywordScore shader_keywords (pyLower q) ≤ keywordScore unreal_keywords (pyLower q) →
        categorize_query q = "Unreal") ∧
    (keywordScore st_unity_keywords (pyLower q) = keywordScore st_unreal_keywords (pyLower q) ∧
      keywordScore st_shader_keywords (pyLower q) ≤ keywordScore st_unity_keywords (pyLower q) ∧
      0 < keywordScore st_unity_keywords (pyLower q) →
        st_categorize_query q = "Unity") := by
  refine ⟨fun ⟨h1, h2, h3⟩ => ?_, fun ⟨h1, h2⟩ => ?_, fun ⟨h1, h2, h3⟩ => ?_⟩ <;>
    · simp only [categorize_query, st_categorize_query, pyMaxByScore]
      dsimp only [List.foldl]
      split_ifs <;> first | rfl | omega

/-- Witness for C5 at the concrete tie query "unity unreal" (Unity score and
Unreal score are both 1, Shader score is 0, in both classifiers). -/
theorem classifier_tie_prefers_earlier_witness :
    categorize_query "unity unreal" = "Unity" ∧ st_categorize_query "unity unreal" = "Unity" :=
  ⟨(classifier_tie_prefers_earlier "unity unreal").1 (by decide),
   (classifier_tie_prefers_earlier "unity unreal").2.2 (by decide)⟩

/-- Claim C6: for Unity, `generate_response` selects the first topic key of
`UNITY_KNOWLEDGE` occurring as a substring of the lower-cased query (the head
of the filtered key list), defaulting to "teleport" (so the selected entry is
always the teleport entry); for Unreal and Shader the single fixed topic is
selected and the response is independent of the query text except for the
echoed `query` field. -/
theorem static_topic_selection (q q' : String) :
    knowledgeAndKey "Unity" q =
      some (UNITY_KNOWLEDGE,
        (((UNITY_KNOWLEDGE.map Prod.fst).filter (fun k => pyContains (pyLower q) k)).head?).getD
          "teleport") ∧
    knowledgeAndKey "Unreal" q = some (UNREAL_KNOWLEDGE, "multiplayer") ∧
    knowledgeAndKey "Shader" q = some (SHADER_KNOWLEDGE, "occlusion") ∧
    generate_response q "Unity" = responseFromEntry q "Unity" unity_teleport_entry ∧
    generate_response q "Unreal" = { generate_response q' "Unreal" with query := q } ∧
    generate_response q "Shader" = { generate_response q' "Shader" with query := q } := by
  refine ⟨?_, rfl, rfl, gen_unity q, ?_, ?_⟩
  · unfold knowledgeAndKey
    rw [find?_filter_head]
    rfl
  · rw [gen_unreal q, gen_unreal q']; rfl
  · rw [gen_shader q, gen_shader q']; rfl

/-- Claim C9: for the categories Unity, Unreal and Shader, `generate_response`
never produces the final single-subtask fallback response (the one whose only
documentation link is "https://docs.example.com"): the chosen topic key always
exists in the chosen knowledge base. -/
theorem general_fallback_unreachable (q c : String)
    (h : c = "Unity" ∨ c = "Unreal" ∨ c = "Shader") :
    generate_response q c ≠ fallbackResponse q c ∧
    (generate_response q c).documentation_links ≠ ["https://docs.example.com"] := by
  have key : (generate_response q c).documentation_links ≠ ["https://docs.example.com"] := by
    rcases h with h | h | h <;> subst h
    · rw [gen_unity]
      show unity_teleport_entry.docs ≠ ["https://docs.example.com"]
      decide
    · rw [gen_unreal]
      show unreal_multiplayer_entry.docs ≠ ["https://docs.example.com"]
      decide
    · rw [gen_shader]
      show shader_occlusion_entry.docs ≠ ["https://docs.example.com"]
      decide
  refine ⟨fun heq => key ?_, key⟩
  rw [heq]; rfl

/-- Witness for C9 at a concrete query and the Unity category. -/
theorem general_fallback_unreachable_witness :
    generate_response "x" "Unity" ≠ fallbackResponse "x" "Unity" ∧
    (generate_response "x" "Unity").documentation_links ≠ ["https://docs.example.com"] :=
  general_fallback_unreachable "x" "Unity" (Or.inl rfl)

/-- Claim C1 counterexample: the pipeline response for the first canonical demo
query does NOT pass the schemas.py validator — its first subtask description
"Set up XR Interaction Toolkit" contains none of the actionable verbs
create/add/configure/setup/implement/install, so
`SubTask.description_must_be_actionable` rejects it. -/
theorem demo_roundtrip_counterexample :
    categorize_query demo_query_unity = "Unity" ∧
    validateCodeXRResponse
      (generate_response demo_query_unity (categorize_query demo_query_unity)) = false := by
  decide

/-- Claim C1 as amended: for the three canonical demo queries the pipeline
produces category Unity/Unreal/Shader, difficulty 3/3/4 and at least two
documentation links, and the responses satisfy every schemas.py check except
the actionable-verb subtask validator, which fails for each of them (on
"Set up XR Interaction Toolkit", "Enable VR Template" and
"Optimize for Mobile AR" respectively), so full validation returns false. -/
theorem demo_roundtrip_amended :
    categorize_query demo_query_unity = "Unity" ∧
    categorize_query demo_query_unreal = "Unreal" ∧
    categorize_query demo_query_shader = "Shader" ∧
    (generate_response demo_query_unity "Unity").difficulty_rating = 3 ∧
    (generate_response demo_query_unreal "Unreal").difficulty_rating = 3 ∧
    (generate_response demo_query_shader "Shader").difficulty_rating = 4 ∧
    2 ≤ (generate_response demo_query_unity "Unity").documentation_links.length ∧
    2 ≤ (generate_response demo_query_unreal "Unreal").documentation_links.length ∧
    2 ≤ (generate_response demo_query_shader "Shader").documentation_links.length ∧
    validateExceptActionable (generate_response demo_query_unity "Unity") = true ∧
    validateExceptActionable (generate_response demo_query_unreal "Unreal") = true ∧
    validateExceptActionable (generate_response demo_query_shader "Shader") = true ∧
    subtasksActionableCheck (generate_response demo_query_unity "Unity") = false ∧
    subtasksActionableCheck (generate_response demo_query_unreal "Unreal") = false ∧
    subtasksActionableCheck (generate_response demo_query_shader "Shader") = false ∧
    validateCodeXRResponse (generate_response demo_query_unreal "Unreal") = false ∧
    validateCodeXRResponse (generate_response demo_query_shader "Shader") = false := by
  decide

/-- Claim C2 counterexample: with a raising provider followed by a succeeding
provider, the whole search returns no results, while the succeeding provider
alone yields results — so the raising provider did NOT merely count as
"no result" with the search proceeding to the next provider for the same
enhanced query: it discarded the remaining providers of that query's chain. -/
theorem provider_exception_counterexample :
    search_ar_vr_docs [failing_tool, raw_ok_tool] "teleport" "Unity" = [] ∧
    search_ar_vr_docs [raw_ok_tool] "teleport" "Unity" ≠ [] := by
  decide

/-- Claim C2 as amended: a provider invocation that raises is caught and never
aborts the whole search (the remaining enhanced queries are still processed),
but it terminates the provider chain for the current enhanced query — the
remaining providers for that query are skipped and the query contributes no
results. -/
theorem provider_exception_amended (tool : SearchTool) (rest : List SearchTool)
    (q : String) (qs : List String) (h : tool q = Except.error ()) :
    runToolChain (tool :: rest) q = [] ∧
    gatherAllResults (tool :: rest) (q :: qs) = gatherAllResults (tool :: rest) qs := by
  have h1 : runToolChain (tool :: rest) q = [] := by
    unfold runToolChain; rw [h]
  refine ⟨h1, ?_⟩
  unfold gatherAllResults
  rw [List.map_cons, List.flatten_cons, h1, List.nil_append]

/-- Witness for C2's amended theorem at a concrete raising provider. -/
theorem provider_exception_amended_witness :
    runToolChain [failing_tool, raw_ok_tool] "a" = [] ∧
    gatherAllResults [failing_tool, raw_ok_tool] ["a", "b"] =
      gatherAllResults [failing_tool, raw_ok_tool] ["b"] :=
  provider_exception_amended failing_tool [raw_ok_tool] "a" ["b"] rfl

/-- If every tool of the chain fails or parses to nothing on `q`, the per-query
chain yields no results. -/
theorem runToolChain_eq_nil (tools : List SearchTool) (q : String)
    (h : ∀ tool ∈ tools, providerGivesNothing tool q) : runToolChain tools q = [] := by
  induction tools with
  | nil => rfl
  | cons tool rest ih =>
    unfold runToolChain
    cases ht : tool q with
    | error e => rfl
    | ok r =>
      have hp : parse_search_results r q = [] := h tool (List.mem_cons_self tool rest) r ht
      dsimp only
      rw [hp]
      simpa using ih (fun t htm => h t (List.mem_cons_of_mem tool htm))

/-- If every tool fails or parses to nothing on every query of the list, no
results accumulate over that list. -/
theorem gatherAllResults_eq_nil (tools : List SearchTool) (queries : List String)
    (h : ∀ tool ∈ tools, ∀ q ∈ queries, providerGivesNothing tool q) :
    gatherAllResults tools queries = [] := by
  revert h
  induction queries with
  | nil => intro _; rfl
  | cons q qs ih =>
    intro h
    show ((q :: qs).map (runToolChain tools)).flatten = []
    rw [List.map_cons, List.flatten_cons,
      runToolChain_eq_nil tools q (fun t ht => h t ht q (List.mem_cons_self q qs)),
      List.nil_append]
    exact ih (fun t ht q' hq' => h t ht q' (List.mem_cons_of_mem q hq'))

/-- Claim C4: the web search aggregator returns at most 5 results for every
query, category and tool chain; and when every provider invocation fails
(raises, or yields no parsed result) on every enhanced query actually issued
(the first two entries of `_build_search_queries`), it returns the empty
list.  (The embedding is a total function: no input makes it raise.) -/
theorem aggregator_bounded_and_safe (tools : List SearchTool) (query category : String) :
    (search_ar_vr_docs tools query category).length ≤ 5 ∧
    ((∀ tool ∈ tools, ∀ q ∈ (build_search_queries query category).take 2,
        providerGivesNothing tool q) →
      search_ar_vr_docs tools query category = []) := by
  constructor
  · show ((_ : List SearchResultRec).take 5).length ≤ 5
    exact List.length_take_le 5 _
  · intro h
    show rank_and_filter_results
      (gatherAllResults tools ((build_search_queries query category).take 2)) query category = []
    rw [gatherAllResults_eq_nil tools _ h]
    rfl

/-- Witness for C4 with a single always-raising provider. -/
theorem aggregator_bounded_and_safe_witness :
    (search_ar_vr_docs [failing_tool] "x" "Unity").length ≤ 5 ∧
    search_ar_vr_docs [failing_tool] "x" "Unity" = [] :=
  ⟨(aggregator_bounded_and_safe [failing_tool] "x" "Unity").1,
   (aggregator_bounded_and_safe [failing_tool] "x" "Unity").2
     (fun tool ht q _ r hr => by
        rcases List.mem_singleton.mp ht with rfl
        simp [failing_tool] at hr)⟩

/-- Claim C3 (evidence for the code bug): `retrieve_relevant_docs` neither
consults nor populates the `retrieval_cache` table — its result is unchanged
under arbitrary replacement of the cache contents, and the database state it
returns is exactly the input state. -/
theorem retrieval_cache_unused (docs : List DocRow) (cache cache' : List (String × String))
    (nid : Nat) (q : String) (c : Option String) (k : Nat) :
    (retrieve_relevant_docs ⟨docs, cache, nid⟩ q c k).1 =
      (retrieve_relevant_docs ⟨docs, cache', nid⟩ q c k).1 ∧
    (retrieve_relevant_docs ⟨docs, cache, nid⟩ q c k).2 = ⟨docs, cache, nid⟩ :=
  ⟨rfl, rfl⟩

/-- Claim C8: `debug_error` returns the pre-authored TeleportationProvider
diagnosis exactly when the lower-cased log contains both
"nullreferenceexception" and "teleportationprovider"; every other log —
including logs matching the unused MissingComponentException entry of
`error_patterns` — receives the fixed generic diagnosis with error type
"Unknown".  (The embedding is a total function: no input makes it raise.) -/
theorem error_matcher_spec (log : String) :
    (pyContains (pyLower log) "nullreferenceexception" = true ∧
      pyContains (pyLower log) "teleportationprovider" = true →
        debug_error log = nre_teleport_diagnosis) ∧
    (¬(pyContains (pyLower log) "nullreferenceexception" = true ∧
        pyContains (pyLower log) "teleportationprovider" = true) →
      debug_error log = generic_diagnosis ∧ (debug_error log).error_type = "Unknown") := by
  unfold debug_error
  constructor
  · rintro ⟨h1, h2⟩
    simp [h1, h2]
  · intro hn
    cases h1 : pyContains (pyLower log) "nullreferenceexception" with
    | false => simp [h1, generic_diagnosis]
    | true =>
      cases h2 : pyContains (pyLower log) "teleportationprovider" with
      | false => simp [h1, h2, generic_diagnosis]
      | true => exact absurd ⟨h1, h2⟩ hn

/-- Witness for C8: a matching log gets the TeleportationProvider diagnosis, a
MissingComponentException log gets the generic one. -/
theorem error_matcher_spec_witness :
    debug_error "NullReferenceException: TeleportationProvider not set on XR Origin" =
      nre_teleport_diagnosis ∧
    debug_error "MissingComponentException: There is no Rigidbody attached" = generic_diagnosis :=
  ⟨(error_matcher_spec "NullReferenceException: TeleportationProvider not set on XR Origin").1
     ⟨by decide, by decide⟩,
   ((error_matcher_spec "MissingComponentException: There is no Rigidbody attached").2
     (by decide)).1⟩

/-- A prefix occurrence is a containment. -/
theorem listContains_of_isPrefixOf {needle hay : List Char}
    (h : needle.isPrefixOf hay = true) : listContains needle hay = true := by
  cases hay with
  | nil =>
    cases needle with
    | nil => rfl
    | cons n ns => simp [List.isPrefixOf] at h
  | cons c t =>
    unfold listContains
    rw [h]
    rfl

/-- An infix occurrence is a containment. -/
theorem listContains_of_infixOcc {needle hay : List Char} (h : needle <:+: hay) :
    listContains needle hay = true := by
  obtain ⟨s, t, hst⟩ := h
  subst hst
  induction s with
  | nil =>
    rw [List.nil_append]
    exact listContains_of_isPrefixOf (List.isPrefixOf_iff_prefix.mpr ⟨t, rfl⟩)
  | cons c s' ih =>
    simp only [List.cons_append]
    unfold listContains
    rw [ih]
    simp

/-- The defining equation of `likeMatch` for a leading `%`. -/
theorem likeMatch_percent_cons (ps t : List Char) :
    likeMatch ('%' :: ps) t = t.tails.any (fun suffix => likeMatch ps suffix) := by
  simp [likeMatch]

/-- Soundness of `likeMatch` for a wildcard-free core pattern followed by `%`:
a match decomposes the text into a case-insensitively equal prefix and a rest. -/
theorem likeMatch_exact_sound :
    ∀ (q : List Char), (∀ c ∈ q, c ≠ '%' ∧ c ≠ '_') →
      ∀ (t : List Char), likeMatch (q ++ ['%']) t = true →
      ∃ t1 t2, t = t1 ++ t2 ∧ q.map asciiLower = t1.map asciiLower := by
  intro q
  induction q with
  | nil => intro _ t _; exact ⟨[], t, rfl, rfl⟩
  | cons c q' ih =>
    intro hw t h
    have hc := hw c (List.mem_cons_self c q')
    rw [List.cons_append] at h
    unfold likeMatch at h
    rw [if_neg hc.1] at h
    cases t with
    | nil => simp at h
    | cons d ts =>
      dsimp only at h
      rw [if_neg hc.2, Bool.and_eq_true] at h
      obtain ⟨h1, h2⟩ := h
      obtain ⟨t1, t2, rfl, hmap⟩ := ih (fun x hx => hw x (List.mem_cons_of_mem c hx)) ts h2
      refine ⟨d :: t1, t2, rfl, ?_⟩
      have hcd : asciiLower c = asciiLower d := by
        unfold charEqCI at h1
        exact eq_of_beq h1
      simp [List.map_cons, hcd, hmap]

/-- Soundness of the full `%query%` pattern: when the query contains no `LIKE`
wildcard, a match means the lower-cased query occurs in the lower-cased text. -/
theorem likeMatch_sound_substring (q : String) (t : List Char)
    (hq : noLikeWildcards q = true)
    (h : likeMatch (likePattern q) t = true) :
    listContains (q.data.map asciiLower) (t.map asciiLower) = true := by
  have hw : ∀ c ∈ q.data, c ≠ '%' ∧ c ≠ '_' := by
    intro c hc
    have hb := List.all_eq_true.mp hq c hc
    simp at hb
    exact hb
  unfold likePattern at h
  rw [List.cons_append, likeMatch_percent_cons] at h
  obtain ⟨t2, ht2, h2⟩ := List.any_eq_true.mp h
  obtain ⟨s, rfl⟩ := (List.mem_tails _ _).mp ht2
  obtain ⟨t1, t2', rfl, hmap⟩ := likeMatch_exact_sound q.data hw t2 h2
  apply listContains_of_infixOcc
  rw [hmap]
  exact ⟨s.map asciiLower, t2'.map asciiLower, by simp⟩

/-- The pattern `%%%` (built from the query `"%"`) matches every text. -/
theorem likeMatch_triple_percent (t : List Char) : likeMatch ['%', '%', '%'] t = true := by
  rw [likeMatch_percent_cons]
  exact List.any_eq_true.mpr ⟨[], (List.mem_tails _ _).mpr List.nil_suffix, by decide⟩

/-- A pairwise id-descending list passes the adjacent `idsDescending` check. -/
theorem idsDescending_of_pairwise : ∀ {l : List RetrievedDoc},
    l.Pairwise (fun a b => b.id ≤ a.id) → idsDescending l = true := by
  intro l h
  induction l with
  | nil => rfl
  | cons a t ih =>
    cases t with
    | nil => rfl
    | cons b t' =>
      rw [List.pairwise_cons] at h
      show (decide (b.id ≤ a.id) && idsDescending (b :: t')) = true
      rw [Bool.and_eq_true]
      exact ⟨decide_eq_true (h.1 b (List.mem_cons_self b t')), ih h.2⟩

/-- Shape facts shared by both branches of `retrieve_relevant_docs`: filtering
by a predicate that implies the match conditions, sorting by descending id,
truncating to `top_k` and converting rows to result dicts yields a list whose
members all satisfy `resultMatchesQuery`, whose ids are non-increasing, whose
length is at most `top_k`, and which is empty for an empty table. -/
theorem retrieval_shape_facts (docs : List DocRow) (pred : DocRow → Bool) (k : Nat)
    (q : String) (c : Option String)
    (hq : noLikeWildcards q = true)
    (hpred : ∀ row, pred row = true → rowMatchesQuery q row = true ∧
        (if categoryFilterActive c then row.category == c.getD "" else true) = true) :
    ((((docs.filter pred).insertionSort (fun a b => b.id ≤ a.id)).take k).map
        (fun row => ({ id := row.id, title := row.title, content := row.content,
                       source := row.source, category := row.category, url := row.url,
                       similarity_tenths := 8 } : RetrievedDoc))).all (resultMatchesQuery q c) = true ∧
    idsDescending ((((docs.filter pred).insertionSort (fun a b => b.id ≤ a.id)).take k).map
        (fun row => ({ id := row.id, title := row.title, content := row.content,
                       source := row.source, category := row.category, url := row.url,
                       similarity_tenths := 8 } : RetrievedDoc))) = true ∧
    ((((docs.filter pred).insertionSort (fun a b => b.id ≤ a.id)).take k).map
        (fun row => ({ id := row.id, title := row.title, content := row.content,
                       source := row.source, category := row.category, url := row.url,
                       similarity_tenths := 8 } : RetrievedDoc))).length ≤ k ∧
    (docs = [] → ((((docs.filter pred).insertionSort (fun a b => b.id ≤ a.id)).take k).map
        (fun row => ({ id := row.id, title := row.title, content := row.content,
                       source := row.source, category := row.category, url := row.url,
                       similarity_tenths := 8 } : RetrievedDoc))) = []) := by
  haveI htot : IsTotal DocRow (fun a b => b.id ≤ a.id) :=
    ⟨fun a b => (Nat.le_total b.id a.id).imp id id⟩
  haveI htrans : IsTrans DocRow (fun a b => b.id ≤ a.id) :=
    ⟨fun _ _ _ hab hbc => Nat.le_trans hbc hab⟩
  refine ⟨?_, ?_, ?_, ?_⟩
  · rw [List.all_eq_true]
    intro x hx
    obtain ⟨row, hrow, rfl⟩ := List.mem_map.mp hx
    have hrow2 : row ∈ (docs.filter pred).insertionSort (fun a b => b.id ≤ a.id) :=
      List.mem_of_mem_take hrow
    have hrow3 : row ∈ docs.filter pred :=
      (List.mem_insertionSort (fun a b : DocRow => b.id ≤ a.id)).mp hrow2
    have hpr : pred row = true := (List.mem_filter.mp hrow3).2
    have hm := (hpred row hpr).1
    have hcat := (hpred row hpr).2
    unfold rowMatchesQuery at hm
    rw [Bool.or_eq_true] at hm
    unfold resultMatchesQuery
    rw [Bool.and_eq_true]
    constructor
    · rw [Bool.or_eq_true]
      cases hm with
      | inl hc' => exact Or.inl (likeMatch_sound_substring q row.content.data hq hc')
      | inr ht' => exact Or.inr (likeMatch_sound_substring q row.title.data hq ht')
    · exact hcat
  · apply idsDescending_of_pairwise
    have h1 : ((docs.filter pred).insertionSort (fun a b => b.id ≤ a.id)).Pairwise
        (fun a b => b.id ≤ a.id) :=
      List.sorted_insertionSort (fun a b : DocRow => b.id ≤ a.id) (docs.filter pred)
    have h2 := List.Pairwise.sublist (List.take_sublist k _) h1
    exact h2.map _ (fun a b hab => hab)
  · rw [List.length_map]
    exact List.length_take_le k _
  · intro hdocs
    simp [hdocs]

/-- Claim C7 counterexample: for the query "%" the retrieval returns the sole
indexed document even though neither its title "abc" nor its content "def"
contains the character '%' — `retrieve_relevant_docs` embeds the raw query
into a `LIKE` pattern, so "%" matches everything. -/
theorem retrieval_substring_counterexample :
    (retrieve_relevant_docs sample_db "%" none 5).1 =
      [{ id := 1, title := "abc", content := "def", source := "s", category := "Unity", url := "",
         similarity_tenths := 8 }] ∧
    containsCI "abc" "%" = false ∧
    containsCI "def" "%" = false := by decide

/-- Claim C7 as amended: for every wildcard-free query (no '%' or '_'), every
category filter and every `top_k`, retrieval returns only documents whose
title or content contains the query as a case-insensitive substring and whose
category equals the filter when an active (non-empty) filter is supplied, in
non-increasing identifier order, with at most `top_k` documents; retrieval on
an index into which nothing has been inserted returns the empty sequence. -/
theorem retrieval_restricted (db : RagDB) (q : String) (c : Option String) (k : Nat)
    (hq : noLikeWildcards q = true) :
    (retrieve_relevant_docs db q c k).1.all (resultMatchesQuery q c) = true ∧
    idsDescending (retrieve_relevant_docs db q c k).1 = true ∧
    (retrieve_relevant_docs db q c k).1.length ≤ k ∧
    (db.documents = [] → (retrieve_relevant_docs db q c k).1 = []) := by
  cases hcf : categoryFilterActive c with
  | false =>
    have hshape : (retrieve_relevant_docs db q c k).1 =
        (((db.documents.filter (rowMatchesQuery q)).insertionSort
            (fun a b => b.id ≤ a.id)).take k).map
          (fun row => ({ id := row.id, title := row.title, content := row.content,
                         source := row.source, category := row.category, url := row.url,
                         similarity_tenths := 8 } : RetrievedDoc)) := by
      unfold retrieve_relevant_docs
      rw [hcf]
      rfl
    rw [hshape]
    exact retrieval_shape_facts db.documents (rowMatchesQuery q) k q c hq
      (fun row hrow => ⟨hrow, by rw [hcf]; rfl⟩)
  | true =>
    have hshape : (retrieve_relevant_docs db q c k).1 =
        (((db.documents.filter
              (fun row => row.category == c.getD "" && rowMatchesQuery q row)).insertionSort
            (fun a b => b.id ≤ a.id)).take k).map
          (fun row => ({ id := row.id, title := row.title, content := row.content,
                         source := row.source, category := row.category, url := row.url,
                         similarity_tenths := 8 } : RetrievedDoc)) := by
      unfold retrieve_relevant_docs
      rw [hcf]
      rfl
    rw [hshape]
    exact retrieval_shape_facts db.documents
      (fun row => row.category == c.getD "" && rowMatchesQuery q row) k q c hq
      (fun row hrow => by
        rw [Bool.and_eq_true] at hrow
        refine ⟨hrow.2, ?_⟩
        rw [hcf, if_pos rfl]
        exact hrow.1)

/-- Witness for C7's amended theorem: a filtered retrieval over a one-document
index, and a retrieval over the freshly initialized (empty) index. -/
theorem retrieval_restricted_witness :
    noLikeWildcards "teleport" = true ∧
    (retrieve_relevant_docs teleport_db "teleport" (some "Unity") 5).1.all
      (resultMatchesQuery "teleport" (some "Unity")) = true ∧
    idsDescending (retrieve_relevant_docs teleport_db "teleport" (some "Unity") 5).1 = true ∧
    (retrieve_relevant_docs teleport_db "teleport" (some "Unity") 5).1.length ≤ 5 ∧
    (retrieve_relevant_docs initialize_database "teleport" none 5).1 = [] :=
  ⟨by decide,
   (retrieval_restricted teleport_db "teleport" (some "Unity") 5 (by decide)).1,
   (retrieval_restricted teleport_db "teleport" (some "Unity") 5 (by decide)).2.1,
   (retrieval_restricted teleport_db "teleport" (some "Unity") 5 (by decide)).2.2.1,
   (retrieval_restricted initialize_database "teleport" none 5 (by decide)).2.2.2 rfl⟩

/-- Claim C10: the query consisting of the single character '%' acts as a
wildcard at the public interface: retrieval with it returns the first `top_k`
indexed documents in descending-identifier order, regardless of document
contents — in particular documents containing no '%' at all. -/
theorem wildcard_query_returns_all (db : RagDB) (k : Nat) :
    (retrieve_relevant_docs db "%" none k).1 =
      ((db.documents.insertionSort (fun a b => b.id ≤ a.id)).take k).map
        (fun row => ({ id := row.id, title := row.title, content := row.content,
                       source := row.source, category := row.category, url := row.url,
                       similarity_tenths := 8 } : RetrievedDoc)) := by
  have hfilter : db.documents.filter (rowMatchesQuery "%") = db.documents :=
    List.filter_eq_self.mpr (fun row _ => by
      unfold rowMatchesQuery
      have h1 : likePattern "%" = ['%', '%', '%'] := rfl
      rw [h1, likeMatch_triple_percent]
      rfl)
  have hmain : (retrieve_relevant_docs db "%" none k).1 =
      (((db.documents.filter (rowMatchesQuery "%")).insertionSort
          (fun a b => b.id ≤ a.id)).take k).map
        (fun row => ({ id := row.id, title := row.title, content := row.content,
                       source := row.source, category := row.category, url := row.url,
                       similarity_tenths := 8 } : RetrievedDoc)) := rfl
  rw [hmain, hfilter]
